import Mathlib

/-!
Shallow embedding of `bilibili_livechat_record.py` (class `BilibiliChatRecord`).

The browser/driver, the HTML parsing and the CSV sink are external collaborators;
what is modelled is the data that reaches the pure core:

* a chat item as the bag of `data-*` attributes the code reads
  (`data-ts` already parsed to an integer, `none` when the attribute is
  absent or empty, which the code skips via `if not timestamp`);
* a snapshot as the optional `#chat-history-list` container holding the
  `.chat-item` elements (`none` = container element absent);
* a Python exception as its class name plus its message string
  (`ChatNotFoundError(msg)` in the code);
* the controller state as the mutable fields the loop touches
  (`_chat_item_list_strage`, `_timestamp`, `_reference_items_count`).
-/

/-- A `.chat-item` element, reduced to the attributes `get_chat_comments` reads.
`data_ts` is `none` when `chat_item.get("data-ts")` is falsy (absent or empty). -/
structure RawChatItem where
  data_ts : Option Int
  data_ct : Option String
  data_uname : Option String
  data_danmaku : Option String
  data_uid : Option String
deriving DecidableEq

/-- The dict built for one kept chat item (lines 134-138 of the source). -/
structure ChatEntry where
  timestamp : Int
  data_ct : Option String
  data_uname : Option String
  data_danmaku : Option String
  data_uid : Option String
deriving DecidableEq

/-- The snapshot handed to `get_chat_comments`: the `#chat-history-list`
container, when present, with its `.chat-item` children. -/
structure Snapshot where
  container : Option (List RawChatItem)
deriving DecidableEq

/-- A raised Python exception: its class name and message.
The code declares a single class `ChatNotFoundError(NameError)`. -/
structure PyError where
  cls : String
  msg : String
deriving DecidableEq

/-- The error raised at line 114 when `soup.find(id="chat-history-list")` is falsy. -/
def containerNotFoundError : PyError :=
  { cls := "ChatNotFoundError", msg := "#chat-history-list 要素がありません" }

/-- The error raised at line 117 when `chat.find_all(class_="chat-item")` is empty. -/
def noItemsFoundError : PyError :=
  { cls := "ChatNotFoundError", msg := ".chat-item 要素がありません" }

/-- Lines 129-132: the item is skipped when `latest_timestamp` is truthy
(present and nonzero, by Python truthiness) and `timestamp < latest_timestamp`. -/
def keepByTimestamp (latestTimestamp : Option Int) (timestamp : Int) : Bool :=
  match latestTimestamp with
  | none => true
  | some w => if w = 0 then true else decide (w ≤ timestamp)

/-- Lines 134-138: the dict built from a kept item and its parsed timestamp. -/
def extractEntry (item : RawChatItem) (timestamp : Int) : ChatEntry :=
  { timestamp := timestamp
    data_ct := item.data_ct
    data_uname := item.data_uname
    data_danmaku := item.data_danmaku
    data_uid := item.data_uid }

/-- Lines 142-143: `if len(chat_item_list): latest_timestamp = chat_item_list[-1]["timestamp"]`. -/
def updateWatermark (chatItemList : List ChatEntry) (latestTimestamp : Option Int) : Option Int :=
  match chatItemList.getLast? with
  | none => latestTimestamp
  | some e => some e.timestamp

/-- Lines 119-144 of `get_chat_comments`: the item loop (skip items without
`data-ts`, apply the timestamp filter, build the dicts) followed by the
watermark update. -/
def processChatItems (chatItems : List RawChatItem) (latestTimestamp : Option Int) :
    List ChatEntry × Option Int :=
  let chatItemList := chatItems.filterMap fun item =>
    match item.data_ts with
    | none => none
    | some ts =>
      if keepByTimestamp latestTimestamp ts then some (extractEntry item ts) else none
  (chatItemList, updateWatermark chatItemList latestTimestamp)

/-- `get_chat_comments` (lines 100-144): raise `ChatNotFoundError` when the
container is absent (line 114) or when it holds no `.chat-item` (line 117),
otherwise run the item loop. -/
def getChatComments (snap : Snapshot) (latestTimestamp : Option Int) :
    Except PyError (List ChatEntry × Option Int) :=
  match snap.container with
  | none => .error containerNotFoundError
  | some chatItems =>
    if chatItems.isEmpty then .error noItemsFoundError
    else .ok (processChatItems chatItems latestTimestamp)

/-- `_drop_duplicated_items` (lines 146-165): return the input when the
reference list is falsy, otherwise keep the items whose `unique_key` value is
not among the reference items' values. -/
def dropDuplicatedItems (chatItemList referenceList : List ChatEntry)
    (uniqueKey : ChatEntry → Option String) : List ChatEntry :=
  if referenceList.isEmpty then chatItemList
  else
    let latestDataCtList := referenceList.map uniqueKey
    chatItemList.filter fun chatItem => decide (uniqueKey chatItem ∉ latestDataCtList)

/-- The mutable controller fields the polling loop touches: `_chat_item_list_strage`,
`_timestamp` and `_reference_items_count` (`_url` and `_driver` belong to the
external browser session). -/
structure ControllerState where
  strage : List ChatEntry
  timestamp : Option Int
  referenceItemsCount : Nat
deriving DecidableEq

/-- The state set up by `__init__` (lines 70-74). -/
def initialState : ControllerState :=
  { strage := [], timestamp := none, referenceItemsCount := 500 }

/-- Python's `l[-k:]` for `k ≥ 1`: the trailing `k` elements (all of `l` when
`l` is shorter). -/
def takeLast (l : List ChatEntry) (k : Nat) : List ChatEntry :=
  l.drop (l.length - k)

/-- One iteration of the loop body (lines 186-195): fetch-and-filter via
`get_chat_comments` with the stored timestamp, dedup against the trailing
`_reference_items_count` entries of storage, then extend storage when
`store_chat_data` is set.  The CSV write is the external sink.  An exception
from `get_chat_comments` propagates before any field is assigned. -/
def runCycle (storeChatData : Bool) (st : ControllerState) (snap : Snapshot) :
    Except PyError ControllerState :=
  match getChatComments snap st.timestamp with
  | .error e => .error e
  | .ok (chatItemList, ts) =>
    let deduped := dropDuplicatedItems chatItemList
      (takeLast st.strage st.referenceItemsCount) (fun e => e.data_ct)
    .ok { st with
      timestamp := ts
      strage := if storeChatData then st.strage ++ deduped else st.strage }

/-- The `for i in range(max_loop_count)` loop (lines 185-196), driven by the
successive snapshots the page presents; a raised exception aborts the run,
leaving the state as it was before the failing cycle. -/
def runLoop (storeChatData : Bool) (snaps : List Snapshot) (st : ControllerState) :
    Except (PyError × ControllerState) ControllerState :=
  match snaps with
  | [] => .ok st
  | snap :: rest =>
    match runCycle storeChatData st snap with
    | .error e => .error (e, st)
    | .ok st1 => runLoop storeChatData rest st1

/-- Line 182-183: `if reset_timestamp: self._timestamp = None`. -/
def applyReset (resetTimestamp : Bool) (st : ControllerState) : ControllerState :=
  if resetTimestamp then { st with timestamp := none } else st

/-- `loop_chat_comment_retrieval` (lines 167-196): optional watermark reset,
then the cycle loop. -/
def loopChatCommentRetrieval (resetTimestamp storeChatData : Bool)
    (snaps : List Snapshot) (st : ControllerState) :
    Except (PyError × ControllerState) ControllerState :=
  runLoop storeChatData snaps (applyReset resetTimestamp st)

/-- The timestamps of the extracted (timestamped) items of a snapshot's
item list, in snapshot order. -/
def extractedTimestamps (chatItems : List RawChatItem) : List Int :=
  chatItems.filterMap (fun item => item.data_ts)

/-- The item loop without the timestamp filter: one entry per timestamped item. -/
def extractAllEntries (chatItems : List RawChatItem) : List ChatEntry :=
  chatItems.filterMap fun item => item.data_ts.map (extractEntry item)

/-- The watermark after each successive call of the item loop, starting from
`latestTimestamp`. -/
def watermarkTrace (latestTimestamp : Option Int) :
    List (List RawChatItem) → List (Option Int)
  | [] => []
  | s :: rest =>
    (processChatItems s latestTimestamp).2 ::
      watermarkTrace (processChatItems s latestTimestamp).2 rest

/-- Order on optional watermarks: an absent watermark precedes everything;
a present one never becomes absent again and must not decrease. -/
def optLe (a b : Option Int) : Bool :=
  match a, b with
  | none, _ => true
  | some _, none => false
  | some x, some y => decide (x ≤ y)

/-- A concrete `.chat-item` carrying a timestamp and a `data-ct` identifier. -/
def sampleItem (ts : Int) (ct : String) : RawChatItem :=
  { data_ts := some ts, data_ct := some ct
    data_uname := none, data_danmaku := none, data_uid := none }

/-- A concrete extracted entry with a timestamp and a `data-ct` identifier. -/
def sampleEntry (ts : Int) (ct : String) : ChatEntry :=
  { timestamp := ts, data_ct := some ct
    data_uname := none, data_danmaku := none, data_uid := none }

/-- A concrete `.chat-item` whose `data-ts` parses to a negative integer. -/
def negItem : RawChatItem :=
  { data_ts := some (-1), data_ct := some "n"
    data_uname := none, data_danmaku := none, data_uid := none }

/-- Invariant carried along the polling cycles: whenever the watermark is
present, its value lies strictly below every extracted timestamp of every
snapshot still to be processed. -/
def watermarkBelowAll (wm : Option Int) (snaps : List (List RawChatItem)) : Prop :=
  ∀ w, wm = some w → ∀ s ∈ snaps, ∀ b ∈ extractedTimestamps s, w < b

/-!  Helper lemmas shared by the claim theorems. -/

/-- `_drop_duplicated_items` is the filter keeping items whose key value is not
among the reference key values (the `if not reference_list` early return agrees
with the filter, which is vacuous on an empty reference). -/
lemma dropDuplicatedItems_eq_filter (chatItemList referenceList : List ChatEntry)
    (uniqueKey : ChatEntry → Option String) :
    dropDuplicatedItems chatItemList referenceList uniqueKey =
      chatItemList.filter
        (fun chatItem => decide (uniqueKey chatItem ∉ referenceList.map uniqueKey)) := by
  cases referenceList with
  | nil => simp [dropDuplicatedItems]
  | cons r rs => simp [dropDuplicatedItems]

/-- The surviving entries of the item loop are the unfiltered extraction
restricted to the timestamps the watermark keeps. -/
lemma processChatItems_fst (chatItems : List RawChatItem) (wm : Option Int) :
    (processChatItems chatItems wm).1 =
      (extractAllEntries chatItems).filter
        (fun e => keepByTimestamp wm e.timestamp) := by
  induction chatItems with
  | nil => rfl
  | cons it rest ih =>
    simp only [processChatItems, extractAllEntries, List.filterMap_cons] at ih ⊢
    cases h : it.data_ts with
    | none => simpa using ih
    | some ts =>
      by_cases hk : keepByTimestamp wm ts = true
      · simpa [hk, extractEntry, List.filter_cons] using ih
      · simpa [hk, extractEntry, List.filter_cons] using ih

/-- The second component of the item loop is the watermark update applied to
the first component. -/
lemma processChatItems_snd (chatItems : List RawChatItem) (wm : Option Int) :
    (processChatItems chatItems wm).2 =
      updateWatermark (processChatItems chatItems wm).1 wm := rfl

/-- C2: the watermark returned by `get_chat_comments` is the input watermark
when the surviving list is empty, and the timestamp of the last surviving
entry (the last element of the returned list) when it is non-empty. -/
theorem c2_watermark_is_last_surviving (chatItems : List RawChatItem) (wm : Option Int) :
    ((processChatItems chatItems wm).1 = [] → (processChatItems chatItems wm).2 = wm) ∧
    (∀ e, (processChatItems chatItems wm).1.getLast? = some e →
      (processChatItems chatItems wm).2 = some e.timestamp) := by
  constructor
  · intro h
    rw [processChatItems_snd, h]
    rfl
  · intro e hL
    rw [processChatItems_snd]
    unfold updateWatermark
    rw [hL]

/-- Witness for C2 at a concrete call: two surviving entries, watermark
becomes the last one's timestamp. -/
theorem c2_watermark_witness :
    (processChatItems [sampleItem 5 "a", sampleItem 7 "b"] (some 3)).2 = some (7 : Int) :=
  (c2_watermark_is_last_surviving [sampleItem 5 "a", sampleItem 7 "b"] (some 3)).2
    (extractEntry (sampleItem 7 "b") 7) (by rfl)

/-- C3: `_drop_duplicated_items` keeps exactly the input entries whose key
value differs from every reference entry's key value, returns the input
unchanged on an empty reference, and its output is a subsequence of the
input. -/
theorem c3_drop_duplicated_spec (uniqueKey : ChatEntry → Option String)
    (chatItemList referenceList : List ChatEntry) :
    dropDuplicatedItems chatItemList referenceList uniqueKey =
      chatItemList.filter
        (fun chatItem => decide (∀ r ∈ referenceList, uniqueKey r ≠ uniqueKey chatItem)) ∧
    (referenceList = [] → dropDuplicatedItems chatItemList referenceList uniqueKey = chatItemList) ∧
    (dropDuplicatedItems chatItemList referenceList uniqueKey).Sublist chatItemList := by
  refine ⟨?hfilter, ?hempty, ?hsub⟩
  · rw [dropDuplicatedItems_eq_filter]
    apply List.filter_congr
    intro a _
    simp only [decide_eq_decide, List.mem_map]
    constructor
    · intro h r hr heq
      exact h ⟨r, hr, heq⟩
    · rintro h ⟨r, hr, heq⟩
      exact h r hr heq
  · intro h
    rw [h]
    simp [dropDuplicatedItems]
  · rw [dropDuplicatedItems_eq_filter]
    exact List.filter_sublist _

/-- Witness for C3 at a concrete call: empty reference returns the input. -/
theorem c3_drop_duplicated_witness :
    dropDuplicatedItems [sampleEntry 1 "a"] [] (fun e => e.data_ct) = [sampleEntry 1 "a"] :=
  (c3_drop_duplicated_spec (fun e => e.data_ct) [sampleEntry 1 "a"] []).2.1 rfl

/-- C7: `_drop_duplicated_items` is idempotent: deduplicating its own output
against the same reference changes nothing. -/
theorem c7_dedup_idempotent (uniqueKey : ChatEntry → Option String)
    (chatItemList referenceList : List ChatEntry) :
    dropDuplicatedItems (dropDuplicatedItems chatItemList referenceList uniqueKey)
        referenceList uniqueKey =
      dropDuplicatedItems chatItemList referenceList uniqueKey := by
  simp only [dropDuplicatedItems_eq_filter, List.filter_filter, Bool.and_self]

/-- C9: a watermark of `0` is falsy in `if latest_timestamp:`, so the
timestamp filter is skipped entirely: the item loop returns every timestamped
item, exactly as with an absent watermark. -/
theorem c9_zero_watermark_disables_filter (chatItems : List RawChatItem) :
    (processChatItems chatItems (some 0)).1 = extractAllEntries chatItems ∧
    (processChatItems chatItems (some 0)).1 = (processChatItems chatItems none).1 := by
  constructor
  · rw [processChatItems_fst]
    simp [keepByTimestamp]
  · rw [processChatItems_fst, processChatItems_fst]
    simp [keepByTimestamp]

/-- C10: `_drop_duplicated_items` never deduplicates within its input batch:
two input entries sharing a key value absent from the reference both survive. -/
theorem c10_no_within_batch_dedup (uniqueKey : ChatEntry → Option String)
    (l1 l2 l3 referenceList : List ChatEntry) (a b : ChatEntry)
    (hkey : uniqueKey b = uniqueKey a)
    (href : uniqueKey a ∉ referenceList.map uniqueKey) :
    [a, b].Sublist (dropDuplicatedItems (l1 ++ a :: l2 ++ b :: l3) referenceList uniqueKey) := by
  rw [dropDuplicatedItems_eq_filter]
  have pa : decide (uniqueKey a ∉ referenceList.map uniqueKey) = true := by
    simpa using href
  have pb : decide (uniqueKey b ∉ referenceList.map uniqueKey) = true := by
    rw [hkey]
    simpa using href
  have hsub : [a, b].Sublist (l1 ++ a :: l2 ++ b :: l3) := by
    have h1 : [a].Sublist (l1 ++ a :: l2) :=
      List.Sublist.trans (List.Sublist.cons₂ a (List.nil_sublist l2))
        (List.sublist_append_right l1 (a :: l2))
    have h2 : [b].Sublist (b :: l3) := List.Sublist.cons₂ b (List.nil_sublist l3)
    exact List.Sublist.append h1 h2
  have hfil := hsub.filter
    (fun chatItem => decide (uniqueKey chatItem ∉ referenceList.map uniqueKey))
  rwa [show List.filter
      (fun chatItem => decide (uniqueKey chatItem ∉ referenceList.map uniqueKey)) [a, b]
      = [a, b] from List.filter_eq_self.mpr (by
        intro x hx
        rcases List.mem_pair.mp hx with h | h
        · rw [h]; exact pa
        · rw [h]; exact pb)] at hfil

/-- Witness for C10 at a concrete call: a batch repeating one identifier keeps
both copies when the reference does not hold that identifier. -/
theorem c10_no_within_batch_witness :
    [sampleEntry 1 "x", sampleEntry 2 "x"].Sublist
      (dropDuplicatedItems
        ([] ++ sampleEntry 1 "x" :: [] ++ sampleEntry 2 "x" :: [])
        [sampleEntry 0 "y"] (fun e => e.data_ct)) :=
  c10_no_within_batch_dedup (fun e => e.data_ct) [] [] [] [sampleEntry 0 "y"]
    (sampleEntry 1 "x") (sampleEntry 2 "x") (by rfl) (by decide)

/-- C1 as stated is false: `some 0` is a present watermark, yet the entry with
timestamp `-1 < 0` survives the filter, because `if latest_timestamp:` is
falsy for `0` and the filter is skipped. -/
theorem c1_counterexample :
    (processChatItems [negItem] (some 0)).1.map (fun e => e.timestamp) = [-1] ∧
    ((-1 : Int) < 0) :=
  ⟨rfl, by decide⟩

/-- C1 amended: for every present *nonzero* watermark `w`, the filter keeps
exactly the extracted entries with `timestamp ≥ w`; in particular every entry
with `timestamp = w` is kept and every entry with `timestamp < w` is dropped. -/
theorem c1_amended_strict_filter (chatItems : List RawChatItem) (w : Int) (hw : w ≠ 0) :
    (processChatItems chatItems (some w)).1 =
      (extractAllEntries chatItems).filter (fun e => decide (w ≤ e.timestamp)) := by
  rw [processChatItems_fst]
  apply List.filter_congr
  intro e _
  simp [keepByTimestamp, hw]

/-- Witness for the amended C1 at a concrete call: watermark `6` drops the
entry at `5` and keeps the entry at `7`. -/
theorem c1_amended_witness :
    (processChatItems [sampleItem 5 "a", sampleItem 7 "b"] (some 6)).1 =
      (extractAllEntries [sampleItem 5 "a", sampleItem 7 "b"]).filter
        (fun e => decide ((6 : Int) ≤ e.timestamp)) :=
  c1_amended_strict_filter [sampleItem 5 "a", sampleItem 7 "b"] 6 (by decide)

/-- C4 as stated is false: the two extraction failures are raised with the
same exception class `ChatNotFoundError`, so they are not distinct error
kinds; a container-absent snapshot and a container-present-but-empty snapshot
yield errors with equal `cls`. -/
theorem c4_counterexample :
    getChatComments { container := none } none = .error containerNotFoundError ∧
    getChatComments { container := some [] } none = .error noItemsFoundError ∧
    containerNotFoundError.cls = noItemsFoundError.cls :=
  ⟨rfl, rfl, rfl⟩

/-- C4 amended: a container-absent snapshot and a container-present-but-empty
snapshot both fail with the single exception class `ChatNotFoundError`; the
two failures are distinguishable only by their message strings, which differ. -/
theorem c4_amended_same_class_distinct_messages (wm : Option Int) :
    (∀ snap : Snapshot, snap.container = none →
      getChatComments snap wm = .error containerNotFoundError) ∧
    (∀ snap : Snapshot, snap.container = some [] →
      getChatComments snap wm = .error noItemsFoundError) ∧
    containerNotFoundError.cls = "ChatNotFoundError" ∧
    noItemsFoundError.cls = "ChatNotFoundError" ∧
    containerNotFoundError.msg ≠ noItemsFoundError.msg := by
  refine ⟨?h1, ?h2, rfl, rfl, by decide⟩
  · intro snap h
    simp [getChatComments, h]
  · intro snap h
    simp [getChatComments, h]

/-- Witness for the amended C4 at a concrete call. -/
theorem c4_amended_witness :
    getChatComments { container := none } (some 7) = .error containerNotFoundError :=
  (c4_amended_same_class_distinct_messages (some 7)).1 { container := none } rfl

/-- C6: when a cycle's extraction raises (absent container, or present but
empty container), the run aborts at that cycle with the controller state -
including the stored history - exactly as it was before the failing cycle. -/
theorem c6_error_aborts_run_history_unchanged (storeChatData : Bool)
    (st : ControllerState) (snap : Snapshot) (rest : List Snapshot) :
    (snap.container = none →
      runLoop storeChatData (snap :: rest) st = .error (containerNotFoundError, st)) ∧
    (snap.container = some [] →
      runLoop storeChatData (snap :: rest) st = .error (noItemsFoundError, st)) := by
  constructor
  · intro h
    simp [runLoop, runCycle, getChatComments, h]
  · intro h
    simp [runLoop, runCycle, getChatComments, h]

/-- Witness for C6 at a concrete call. -/
theorem c6_error_aborts_witness :
    runLoop true [{ container := none }] initialState =
      .error (containerNotFoundError, initialState) :=
  (c6_error_aborts_run_history_unchanged true initialState { container := none } []).1 rfl

/-- C8: the watermark reset performed by `loop_chat_comment_retrieval` with
`reset_timestamp=True` clears only `_timestamp`; `_chat_item_list_strage` and
`_reference_items_count` are untouched, and the loop then runs from that
reset state. -/
theorem c8_reset_clears_only_watermark (st : ControllerState) (storeChatData : Bool)
    (snaps : List Snapshot) :
    (applyReset true st).timestamp = none ∧
    (applyReset true st).strage = st.strage ∧
    (applyReset true st).referenceItemsCount = st.referenceItemsCount ∧
    loopChatCommentRetrieval true storeChatData snaps st =
      runLoop storeChatData snaps { st with timestamp := none } :=
  ⟨rfl, rfl, rfl, rfl⟩

/-- Every surviving entry's timestamp comes from a timestamped item of the
snapshot. -/
lemma timestamp_mem_extracted (chatItems : List RawChatItem) (wm : Option Int) :
    ∀ e ∈ (processChatItems chatItems wm).1, e.timestamp ∈ extractedTimestamps chatItems := by
  intro e he
  rw [processChatItems_fst] at he
  have he2 := List.mem_of_mem_filter he
  rw [extractAllEntries, List.mem_filterMap] at he2
  obtain ⟨item, hitem, hmap⟩ := he2
  rw [extractedTimestamps, List.mem_filterMap]
  refine ⟨item, hitem, ?hts⟩
  cases hts : item.data_ts with
  | none =>
    rw [hts] at hmap
    simp at hmap
  | some ts =>
    rw [hts] at hmap
    have heq : extractEntry item ts = e := by simpa using hmap
    rw [← heq]
    rfl

/-- The watermark returned by the item loop is either the input watermark or
the timestamp of one of the surviving entries. -/
lemma processChatItems_snd_cases (chatItems : List RawChatItem) (wm : Option Int) :
    (processChatItems chatItems wm).2 = wm ∨
      ∃ e ∈ (processChatItems chatItems wm).1,
        (processChatItems chatItems wm).2 = some e.timestamp := by
  cases hL : (processChatItems chatItems wm).1.getLast? with
  | none =>
    left
    rw [processChatItems_snd]
    unfold updateWatermark
    rw [hL]
  | some e =>
    right
    refine ⟨e, ?hmem, ?heq⟩
    · obtain ⟨hne, hx⟩ := List.mem_getLast?_eq_getLast (l := (processChatItems chatItems wm).1) hL
      rw [hx]
      exact List.getLast_mem hne
    · rw [processChatItems_snd]
      unfold updateWatermark
      rw [hL]

/-- One polling step never lowers the watermark, given the invariant. -/
lemma watermark_step_le (s : List RawChatItem) (rest : List (List RawChatItem))
    (wm : Option Int) (hinv : watermarkBelowAll wm (s :: rest)) :
    optLe wm (processChatItems s wm).2 = true := by
  cases wm with
  | none => rfl
  | some w =>
    rcases processChatItems_snd_cases s (some w) with h | ⟨e, he, h⟩
    · rw [h]
      simp [optLe]
    · rw [h]
      have hts := timestamp_mem_extracted s (some w) e he
      have hlt := hinv w rfl s (List.mem_cons_self s rest) e.timestamp hts
      simp only [optLe, decide_eq_true_eq]
      exact le_of_lt hlt

/-- One polling step preserves the invariant over the remaining snapshots. -/
lemma watermark_step_inv (s : List RawChatItem) (rest : List (List RawChatItem))
    (wm : Option Int) (hinv : watermarkBelowAll wm (s :: rest))
    (hcross : ∀ t ∈ rest, ∀ a ∈ extractedTimestamps s, ∀ b ∈ extractedTimestamps t, a < b) :
    watermarkBelowAll (processChatItems s wm).2 rest := by
  rcases processChatItems_snd_cases s wm with h | ⟨e, he, h⟩
  · rw [h]
    intro w hw t ht b hb
    exact hinv w hw t (List.mem_cons_of_mem s ht) b hb
  · rw [h]
    intro w hw t ht b hb
    injection hw with hw'
    subst hw'
    exact hcross t ht e.timestamp (timestamp_mem_extracted s wm e he) b hb

/-- The watermark trace is a non-decreasing chain from any invariant-respecting
start, under pairwise increase of the snapshots' extracted timestamps. -/
lemma watermarkTrace_chain (snaps : List (List RawChatItem)) :
    ∀ wm, watermarkBelowAll wm snaps →
      snaps.Pairwise
        (fun s t => ∀ a ∈ extractedTimestamps s, ∀ b ∈ extractedTimestamps t, a < b) →
      List.Chain' (fun a b => optLe a b = true) (wm :: watermarkTrace wm snaps) := by
  induction snaps with
  | nil =>
    intro wm _ _
    simp [watermarkTrace]
  | cons s rest ih =>
    intro wm hinv hpair
    rw [watermarkTrace, List.chain'_cons]
    obtain ⟨hhead, htail⟩ := List.pairwise_cons.mp hpair
    exact ⟨watermark_step_le s rest wm hinv,
      ih ((processChatItems s wm).2) (watermark_step_inv s rest wm hinv hhead) htail⟩

/-- C5: starting from the reset (absent) watermark, for any sequence of
snapshots whose extracted timestamps are non-decreasing within each snapshot
and strictly increasing from one snapshot to any later one, the watermark is
non-decreasing from each cycle to the next. -/
theorem c5_watermark_monotone (snaps : List (List RawChatItem))
    (hsorted : ∀ s ∈ snaps, List.Chain' (· ≤ ·) (extractedTimestamps s))
    (hacross : snaps.Pairwise
      (fun s t => ∀ a ∈ extractedTimestamps s, ∀ b ∈ extractedTimestamps t, a < b)) :
    List.Chain' (fun a b => optLe a b = true) (none :: watermarkTrace none snaps) :=
  watermarkTrace_chain snaps none (fun _ hw => Option.noConfusion hw) hacross

/-- Witness for C5 on a concrete two-cycle run with increasing timestamps. -/
theorem c5_watermark_witness :
    List.Chain' (fun a b => optLe a b = true)
      (none :: watermarkTrace none [[sampleItem 1 "a"], [sampleItem 2 "b"]]) :=
  c5_watermark_monotone [[sampleItem 1 "a"], [sampleItem 2 "b"]]
    (by simp [extractedTimestamps, sampleItem])
    (by simp [extractedTimestamps, sampleItem])
